import Mathlib

/-!
Verification of the document-analysis tool (`src/document_analysis.py`).

The development shallowly embeds the pure core of the program:

* `_clean_possible_json`  → `cleanPossibleJson`
* `_normalize_type`       → `normalize_type` (plus `normalize_type_py`, which
  also records the `AttributeError` raised when `.strip()` is called on a
  truthy non-string value)
* the parse phase of `render_analysis_ui` → `render_analysis_ui`
* `analyze_document`      → `analyze_document`, with the two network calls
  passed in as oracles and the built upload request / completion attempt
  recorded in an explicit trace.

Python's `json.loads` is embedded by `parseJson`, a strict recursive-descent
parser written with structural fuel recursion so that it evaluates inside the
kernel.  Two deliberate approximations, both in corners no theorem touches:
`Char.toLower` only lowercases ASCII (Python lowercases full Unicode), and a
lone UTF-16 surrogate produced by a `\uXXXX` escape is stored as U+FFFD
because a Lean `Char` cannot hold a lone surrogate.
-/

namespace DocAnalysis

/-- The backtick character (kept out of source text as a literal). -/
def tick : Char := Char.ofNat 96

/-- Python JSON values, as produced by `json.loads`.
`num m e` stands for the number `m * 10 ^ e` (integers have `e = 0`);
`nan` / `inf` model the non-standard constants Python accepts by default. -/
inductive Json where
  | null
  | bool (b : Bool)
  | num (m : Int) (e : Int)
  | nan
  | inf (neg : Bool)
  | str (s : String)
  | arr (elems : List Json)
  | obj (pairs : List (String × Json))

/-- Python truthiness of a decoded JSON value (`None`, `""`, `0`, `0.0`,
`False`, `[]`, `{}` are falsy; everything else, including `nan`, is truthy). -/
def Json.truthy : Json → Bool
  | .null => false
  | .bool b => b
  | .num m _ => m != 0
  | .nan => true
  | .inf _ => true
  | .str s => s != ""
  | .arr l => !l.isEmpty
  | .obj l => !l.isEmpty

/-- `dict.get k`: first (= only, after `insertKV`) binding of `k`. -/
def getPy : List (String × Json) → String → Option Json
  | [], _ => none
  | (k0, v0) :: rest, k => if k0 = k then some v0 else getPy rest k

/-- `d[k] = v` on an insertion-ordered dict: replace in place, else append. -/
def insertKV : List (String × Json) → String → Json → List (String × Json)
  | [], k, v => [(k, v)]
  | (k0, v0) :: rest, k, v =>
      if k0 = k then (k0, v) :: rest else (k0, v0) :: insertKV rest k v

/-- JSON whitespace (the only characters `json.decoder` skips). -/
def isJsonWS (c : Char) : Bool := c = ' ' || c = '\t' || c = '\n' || c = '\r'

/-- Skip JSON whitespace. -/
def skipWS (l : List Char) : List Char := l.dropWhile isJsonWS

/-- Value of a hex digit, if `c` is one. -/
def hexVal? (c : Char) : Option Nat :=
  if '0' ≤ c ∧ c ≤ '9' then some (c.toNat - 48)
  else if 'a' ≤ c ∧ c ≤ 'f' then some (c.toNat - 87)
  else if 'A' ≤ c ∧ c ≤ 'F' then some (c.toNat - 55)
  else none

/-- Value of a decimal digit, if `c` is one. -/
def digitVal? (c : Char) : Option Nat :=
  if '0' ≤ c ∧ c ≤ '9' then some (c.toNat - 48) else none

/-- Body of a JSON string after the opening quote, CPython `py_scanstring`
in strict mode: raw control characters and unknown escapes are errors,
`\uXXXX` escapes combine surrogate pairs.  Returns the decoded string and
the input after the closing quote.  The fuel argument only makes the
recursion structural: every step consumes at least one input character, and
all call sites pass more fuel than the input's length. -/
def parseStringBody : Nat → List Char → List Char → Option (String × List Char)
  | 0, _, _ => none
  | _ + 1, _, [] => none
  | fuel + 1, acc, c :: rest =>
    if c = '"' then some (⟨acc.reverse⟩, rest)
    else if c = '\\' then
      match rest with
      | [] => none
      | e :: rest2 =>
        if e = '"' then parseStringBody fuel ('"' :: acc) rest2
        else if e = '\\' then parseStringBody fuel ('\\' :: acc) rest2
        else if e = '/' then parseStringBody fuel ('/' :: acc) rest2
        else if e = 'b' then parseStringBody fuel (Char.ofNat 8 :: acc) rest2
        else if e = 'f' then parseStringBody fuel (Char.ofNat 12 :: acc) rest2
        else if e = 'n' then parseStringBody fuel ('\n' :: acc) rest2
        else if e = 'r' then parseStringBody fuel ('\r' :: acc) rest2
        else if e = 't' then parseStringBody fuel ('\t' :: acc) rest2
        else if e = 'u' then
          match rest2 with
          | h1 :: h2 :: h3 :: h4 :: rest3 =>
            match hexVal? h1, hexVal? h2, hexVal? h3, hexVal? h4 with
            | some a, some b, some c2, some d =>
              let n1 := ((a * 16 + b) * 16 + c2) * 16 + d
              if 0xD800 ≤ n1 ∧ n1 ≤ 0xDBFF then
                match rest3 with
                | rst@(s1 :: s2 :: g1 :: g2 :: g3 :: g4 :: rest4) =>
                  if s1 = '\\' ∧ s2 = 'u' then
                    match hexVal? g1, hexVal? g2, hexVal? g3, hexVal? g4 with
                    | some a2, some b2, some c3, some d2 =>
                      let n2 := ((a2 * 16 + b2) * 16 + c3) * 16 + d2
                      if 0xDC00 ≤ n2 ∧ n2 ≤ 0xDFFF then
                        parseStringBody fuel
                          (Char.ofNat (0x10000 + (n1 - 0xD800) * 0x400 + (n2 - 0xDC00)) :: acc)
                          rest4
                      else
                        -- lone high surrogate (U+FFFD approximates it)
                        parseStringBody fuel (Char.ofNat 0xFFFD :: acc) rst
                    | _, _, _, _ => parseStringBody fuel (Char.ofNat 0xFFFD :: acc) rst
                  else parseStringBody fuel (Char.ofNat 0xFFFD :: acc) rst
                | rst =>
                  parseStringBody fuel (Char.ofNat 0xFFFD :: acc) rst
              else
                parseStringBody fuel
                  ((if 0xDC00 ≤ n1 ∧ n1 ≤ 0xDFFF then Char.ofNat 0xFFFD else Char.ofNat n1)
                    :: acc) rest3
            | _, _, _, _ => none
          | _ => none
        else none
    else if c.toNat < 32 then none
    else parseStringBody fuel (c :: acc) rest

/-- Leading run of decimal digits. -/
def takeDigits : List Char → List Nat × List Char
  | [] => ([], [])
  | c :: rest =>
    match digitVal? c with
    | some d => let p := takeDigits rest; (d :: p.1, p.2)
    | none => ([], c :: rest)

/-- Decimal digits to a natural number. -/
def digitsToNat (ds : List Nat) : Nat := ds.foldl (fun a d => a * 10 + d) 0

/-- A JSON number at the head of the input, per CPython's `NUMBER_RE`
`(-?(?:0|[1-9]\d*))(\.\d+)?([eE][-+]?\d+)?`. -/
def parseNumber (l : List Char) : Option (Json × List Char) :=
  let sl : Bool × List Char :=
    match l with
    | c :: rest => if c = '-' then (true, rest) else (false, l)
    | [] => (false, [])
  match sl.2 with
  | [] => none
  | c :: rest =>
    match digitVal? c with
    | none => none
    | some d0 =>
      let ip : List Nat × List Char :=
        if d0 = 0 then ([0], rest)
        else let p := takeDigits rest; (d0 :: p.1, p.2)
      let fp : List Nat × List Char :=
        match ip.2 with
        | '.' :: rr =>
          let p := takeDigits rr
          if p.1.isEmpty then ([], ip.2) else p
        | _ => ([], ip.2)
      let ep : Int × List Char :=
        match fp.2 with
        | c2 :: rr =>
          if c2 = 'e' ∨ c2 = 'E' then
            let sr : Bool × List Char :=
              match rr with
              | c3 :: rr3 =>
                if c3 = '-' then (true, rr3)
                else if c3 = '+' then (false, rr3) else (false, rr)
              | [] => (false, rr)
            let p := takeDigits sr.2
            if p.1.isEmpty then (0, fp.2)
            else ((if sr.1 then -(digitsToNat p.1 : Int) else (digitsToNat p.1 : Int)), p.2)
          else (0, fp.2)
        | [] => (0, fp.2)
      let mant : Nat := digitsToNat (ip.1 ++ fp.1)
      let m : Int := if sl.1 then -(mant : Int) else (mant : Int)
      some (.num m (ep.1 - (fp.1.length : Int)), ep.2)

/-- Control state of the recursive-descent scanner: a value, the inside of an
object just after `{`, the member list of an object, or the element list of
an array. -/
inductive PState where
  | value
  | objStart
  | members (acc : List (String × Json))
  | elems (acc : List Json)

/-- One scanner, CPython `scan_once` plus the object/array loops, written with
structural fuel so the kernel can evaluate it.  Every recursive call spends
one unit of fuel; `parseJson` supplies more fuel than any input can use. -/
def parseCore : Nat → PState → List Char → Option (Json × List Char)
  | 0, _, _ => none
  | fuel + 1, st, l =>
    match st with
    | .value =>
      match l with
      | [] => none
      | c :: rest =>
        if c = '"' then (parseStringBody (rest.length + 1) [] rest).map (fun p => (.str p.1, p.2))
        else if c = '{' then parseCore fuel .objStart (skipWS rest)
        else if c = '[' then
          match skipWS rest with
          | ']' :: r => some (.arr [], r)
          | l2 => parseCore fuel (.elems []) l2
        else
          match c :: rest with
          | 'n' :: 'u' :: 'l' :: 'l' :: r => some (.null, r)
          | 't' :: 'r' :: 'u' :: 'e' :: r => some (.bool true, r)
          | 'f' :: 'a' :: 'l' :: 's' :: 'e' :: r => some (.bool false, r)
          | 'N' :: 'a' :: 'N' :: r => some (.nan, r)
          | 'I' :: 'n' :: 'f' :: 'i' :: 'n' :: 'i' :: 't' :: 'y' :: r => some (.inf false, r)
          | '-' :: 'I' :: 'n' :: 'f' :: 'i' :: 'n' :: 'i' :: 't' :: 'y' :: r =>
              some (.inf true, r)
          | l2 => parseNumber l2
    | .objStart =>
      match l with
      | '}' :: r => some (.obj [], r)
      | l2 => parseCore fuel (.members []) l2
    | .members acc =>
      match l with
      | '"' :: rest =>
        match parseStringBody (rest.length + 1) [] rest with
        | none => none
        | some (k, r1) =>
          match skipWS r1 with
          | ':' :: r2 =>
            match parseCore fuel .value (skipWS r2) with
            | none => none
            | some (v, r3) =>
              match skipWS r3 with
              | ',' :: r4 => parseCore fuel (.members (insertKV acc k v)) (skipWS r4)
              | '}' :: r4 => some (.obj (insertKV acc k v), r4)
              | _ => none
          | _ => none
      | _ => none
    | .elems acc =>
      match parseCore fuel .value l with
      | none => none
      | some (v, r1) =>
        match skipWS r1 with
        | ',' :: r2 => parseCore fuel (.elems (v :: acc)) (skipWS r2)
        | ']' :: r2 => some (.arr (v :: acc).reverse, r2)
        | _ => none

/-- `json.loads`: skip leading whitespace, scan one value, and require that
only whitespace remains (`Extra data` otherwise).  `none` models every
`JSONDecodeError`. -/
def parseJson (s : String) : Option Json :=
  let l := skipWS s.data
  match parseCore (10 * (l.length + 1)) .value l with
  | some (v, rest) => if (skipWS rest).isEmpty then some v else none
  | none => none

/-- `needle` a prefix of `hay`. -/
def isPrefixL : List Char → List Char → Bool
  | [], _ => true
  | _ :: _, [] => false
  | a :: as, b :: bs => (a == b) && isPrefixL as bs

/-- Python `needle in hay` substring test. -/
def containsSub (needle : List Char) : List Char → Bool
  | [] => needle.isEmpty
  | c :: rest => isPrefixL needle (c :: rest) || containsSub needle rest

/-- Characters stripped by `str.strip()` with no argument (ASCII part of
Python's whitespace). -/
def isPySpace (c : Char) : Bool :=
  c = ' ' || c = '\t' || c = '\n' || c = '\r' || c = Char.ofNat 11 || c = Char.ofNat 12

/-- Drop trailing characters satisfying `p`. -/
def dropEndWhile (p : Char → Bool) (l : List Char) : List Char :=
  (l.reverse.dropWhile p).reverse

/-- Python `str.strip(chars)`: drop from both ends while `p` holds. -/
def stripWith (p : Char → Bool) (l : List Char) : List Char :=
  dropEndWhile p (l.dropWhile p)

/-- `str.strip()` with no argument. -/
def pyStrip (s : String) : String := ⟨stripWith isPySpace s.data⟩

/-- `str.lower()` (ASCII). -/
def strToLower (s : String) : String := ⟨s.data.map Char.toLower⟩

/-- `_normalize_type` from the source:

```python
def _normalize_type(raw_type: str) -> str:
    if not raw_type:
        return "unknown"
    t = raw_type.strip().lower()
    if "admin" in t:
        return "administrative"
    if "criminal" in t:
        return "criminal"
    return "unknown"
``` -/
def normalize_type (raw_type : String) : String :=
  if raw_type = "" then "unknown"
  else
    let t := strToLower (pyStrip raw_type)
    if containsSub ("admin".data) t.data then "administrative"
    else if containsSub ("criminal".data) t.data then "criminal"
    else "unknown"

/-- `_normalize_type` applied to an arbitrary decoded JSON value, as
`render_analysis_ui` does: a falsy argument returns `"unknown"`; a truthy
string is normalized; a truthy non-string raises `AttributeError` at
`.strip()` (the `.error` result). -/
def normalize_type_py (v : Json) : Except Unit String :=
  if v.truthy = false then .ok "unknown"
  else
    match v with
    | .str s => .ok (normalize_type s)
    | _ => .error ()

/-- The characters of `str.strip("` \n\r\t")` in `_clean_possible_json`. -/
def isStripChar (c : Char) : Bool :=
  c = tick || c = ' ' || c = '\n' || c = '\r' || c = '\t'

/-- Character `i` of the fence tag `json`. -/
def jsonTagChar (i : Nat) : Char :=
  if i = 0 then 'j' else if i = 1 then 's' else if i = 2 then 'o' else 'n'

/-- Scanner for `re.sub(r"```(json)?", "", text, flags=re.IGNORECASE)`,
one character at a time.  With `inTag = false`, `pend` holds the 0–2
consecutive backticks seen so far (emitted if no fence completes); with
`inTag = true` a fence was just deleted and `pend` holds the 0–3 characters
so far matching the optional case-insensitive `json` group (emitted if the
group fails, deleted when all four match). -/
def subFencesGo : Bool → List Char → List Char → List Char
  | false, pend, [] => pend
  | false, pend, c :: rest =>
    if c = tick then
      if pend.length = 2 then subFencesGo true [] rest
      else subFencesGo false (pend ++ [c]) rest
    else pend ++ c :: subFencesGo false [] rest
  | true, pend, [] => pend
  | true, pend, c :: rest =>
    if c.toLower = jsonTagChar pend.length then
      if pend.length = 3 then subFencesGo false [] rest
      else subFencesGo true (pend ++ [c]) rest
    else
      pend ++ (if c = tick then subFencesGo false [tick] rest
               else c :: subFencesGo false [] rest)

/-- `re.sub(r"```(json)?", "", text, flags=re.IGNORECASE)`: delete every
triple backtick together with a directly following case-insensitive
`json`. -/
def subFences (l : List Char) : List Char := subFencesGo false [] l

/-- `re.search(r"\{.*\}", cleaned, flags=re.DOTALL)` with a greedy `.*`:
the span from the first `{` to the last `}`, when the first `{` has a `}`
after it. -/
def extractBraces (l : List Char) : Option (List Char) :=
  let l1 := l.dropWhile (fun c => c != '{')
  let l2 := (l1.reverse.dropWhile (fun c => c != '}')).reverse
  if l2.isEmpty then none else some l2

/-- `_clean_possible_json` from the source: empty text stays empty;
otherwise delete code-fence markers, strip edge backticks/whitespace, and
return the outermost brace span if one exists, else the cleaned text. -/
def cleanPossibleJson (text : String) : String :=
  if text = "" then ""
  else
    let cleaned := stripWith isStripChar (subFences text.data)
    match extractBraces cleaned with
    | some m => ⟨m⟩
    | none => ⟨cleaned⟩

/-- `a or b` on an optional decoded value (`dict.get` result): the value if
present and truthy, otherwise `b`. -/
def pyOrV (a : Option Json) (b : Json) : Json :=
  match a with
  | some v => if v.truthy then v else b
  | none => b

/-- `parsed.get("document_type") or parsed.get("type") or parsed.get("document") or ""`. -/
def docTypeRaw (kvs : List (String × Json)) : Json :=
  pyOrV (getPy kvs "document_type")
    (pyOrV (getPy kvs "type") (pyOrV (getPy kvs "document") (.str "")))

/-- `parsed.get("explanation") or parsed.get("reason") or parsed.get("summary") or ""`. -/
def explanationRaw (kvs : List (String × Json)) : Json :=
  pyOrV (getPy kvs "explanation")
    (pyOrV (getPy kvs "reason") (pyOrV (getPy kvs "summary") (.str "")))

/-- Outcome of `render_analysis_ui`: the structured card (type chip plus
explanation, raw text retained), or the raw-text fallback card. -/
inductive RenderOutcome where
  | structured (docType : String) (explanation : Json) (rawText : String)
  | rawOnly (rawText : String)

/-- The decision logic of `render_analysis_ui`: clean the reply, attempt
`json.loads` (any decode failure is caught and leaves `parsed = None`),
and build the structured view only when the result is a dict.  The
`.error` case is the uncaught `AttributeError` from `_normalize_type` on a
truthy non-string type value. -/
def render_analysis_ui (result_text : String) : Except Unit RenderOutcome :=
  match parseJson (cleanPossibleJson result_text) with
  | some (.obj kvs) =>
    match normalize_type_py (docTypeRaw kvs) with
    | .ok d => .ok (.structured d (explanationRaw kvs) result_text)
    | .error e => .error e
  | _ => .ok (.rawOnly result_text)

/-- Python `repr` of a string (quote choice and the common escapes;
non-printable characters below space become `\xHH`). -/
def pyReprStr (s : String) : String :=
  let q : Char :=
    if s.data.contains (Char.ofNat 39) && !(s.data.contains '"') then '"' else Char.ofNat 39
  let esc : Char → List Char := fun c =>
    if c = '\\' then ['\\', '\\']
    else if c = q then ['\\', q]
    else if c = '\n' then ['\\', 'n']
    else if c = '\r' then ['\\', 'r']
    else if c = '\t' then ['\\', 't']
    else if c.toNat < 32 then
      ['\\', 'x', (if c.toNat / 16 < 10 then Char.ofNat (48 + c.toNat / 16)
                   else Char.ofNat (87 + c.toNat / 16)),
        (if c.toNat % 16 < 10 then Char.ofNat (48 + c.toNat % 16)
         else Char.ofNat (87 + c.toNat % 16))]
    else [c]
  ⟨q :: (s.data.flatMap esc) ++ [q]⟩

mutual
/-- Python `repr`/`str` of a decoded JSON value, used by the f-string
`f"...: {upload_json}"` (float formatting is approximated; no theorem
inspects it). -/
def pyReprJson : Json → String
  | .null => "None"
  | .bool true => "True"
  | .bool false => "False"
  | .nan => "nan"
  | .inf false => "inf"
  | .inf true => "-inf"
  | .num m e => if e = 0 then toString m else toString m ++ "e" ++ toString e
  | .str s => pyReprStr s
  | .arr xs => "[" ++ String.intercalate ", " (pyReprElems xs) ++ "]"
  | .obj kvs => "\x7b" ++ String.intercalate ", " (pyReprPairs kvs) ++ "\x7d"

/-- `repr` of an array's elements. -/
def pyReprElems : List Json → List String
  | [] => []
  | v :: rest => pyReprJson v :: pyReprElems rest

/-- `repr` of a dict's entries. -/
def pyReprPairs : List (String × Json) → List String
  | [] => []
  | (k, v) :: rest => (pyReprStr k ++ ": " ++ pyReprJson v) :: pyReprPairs rest
end

/-- The multipart upload request `analyze_document` posts to the files
endpoint (the `Authorization` header is environment wiring, out of scope). -/
structure UploadRequestM where
  filename : String
  file_bytes : List Nat
  mime_type : String
  purpose : String
  deriving DecidableEq

/-- The upload endpoint's reply, as seen by the code. -/
structure UploadResponseM where
  status_code : Nat
  text : String
  deriving DecidableEq

/-- The chat-completion payload built by `analyze_document`. -/
structure ChatPayloadM where
  model : String
  system_message : String
  prompt_text : String
  file_id : Json

/-- What a run of `analyze_document` did: its returned string, the upload
request it built, and whether the completion call was attempted. -/
structure AnalyzeTrace where
  result : String
  uploadRequest : UploadRequestM
  completionAttempted : Bool
  deriving DecidableEq

/-- The fixed instruction prompt from the source. -/
def analysisPrompt : String :=
  "You are an assistant that analyzes documents. Based on the uploaded document, determine whether it is an administrative document or a criminal document.\n\nReturn ONLY valid compact JSON with these exact keys (no extra text, no markdown fences):\n\n\x7b\n  \"document_type\": \"administrative\" | \"criminal\" | \"unknown\",\n  \"explanation\": \"A short explanation in simple, non-legal language.\"\n\x7d\n"

/-- `purpose = "vision" if (mime_type and mime_type.startswith("image/")) else "user_data"`. -/
def purposeFor (mime_type : String) : String :=
  if (mime_type != "") && mime_type.startsWith "image/" then "vision" else "user_data"

/-- The upload request built from one submission. -/
def uploadRequestFor (file_bytes : List Nat) (mime_type filename : String) : UploadRequestM :=
  ⟨filename, file_bytes, mime_type, purposeFor mime_type⟩

/-- Modelled exception text of the `JSONDecodeError` raised by
`upload_resp.json()` on a non-JSON body (the library's message; its exact
wording is outside the repository and never inspected by a claim). -/
def jsonDecodeErrMsg : String := "Expecting value"

/-- Modelled exception text of the `AttributeError` raised by
`upload_json.get(...)` when the decoded body is not a dict. -/
def attrGetErrMsg : String := "object has no attribute get"

/-- The `try` body of `analyze_document`, given the already-built upload
request: returns the returned string and whether the completion call was
attempted.  The two network interactions are oracles: `upload` answers the
files-API POST (`.error` = a raised request exception), `complete` answers
the chat-completion call including the extraction of
`response.choices[0].message.content` (`.error` = any exception on that
path).  Every raised exception is caught and rendered as
`"Error during analysis: ..."`, exactly as the source's `except` block does. -/
def analyzeRun
    (upload : UploadRequestM → Except String UploadResponseM)
    (complete : ChatPayloadM → Except String String)
    (req : UploadRequestM) : String × Bool :=
  match upload req with
  | .error e => ("Error during analysis: " ++ e, false)
  | .ok resp =>
    if (resp.status_code != 200) && (resp.status_code != 201) then
      ("Error uploading file: " ++ toString resp.status_code ++ " - " ++ resp.text, false)
    else
      match parseJson resp.text with
      | none => ("Error during analysis: " ++ jsonDecodeErrMsg, false)
      | some (.obj kvs) =>
        match getPy kvs "id" with
        | some fid =>
          if fid.truthy then
            let payload : ChatPayloadM :=
              ⟨"gpt-5-nano", "You are a helpful legal analysis assistant.", analysisPrompt, fid⟩
            match complete payload with
            | .ok text => (text, true)
            | .error e => ("Error during analysis: " ++ e, true)
          else
            ("Error uploading file: no file id returned: " ++ pyReprJson (.obj kvs), false)
        | none =>
          ("Error uploading file: no file id returned: " ++ pyReprJson (.obj kvs), false)
      | some _ => ("Error during analysis: " ++ attrGetErrMsg, false)

/-- `analyze_document` proper: build the upload request, run the sequence,
and record what happened. -/
def analyze_document
    (upload : UploadRequestM → Except String UploadResponseM)
    (complete : ChatPayloadM → Except String String)
    (file_bytes : List Nat) (mime_type : String) (filename : String) : AnalyzeTrace :=
  let req := uploadRequestFor file_bytes mime_type filename
  let rb := analyzeRun upload complete req
  ⟨rb.1, req, rb.2⟩

/-! ## Helper lemmas -/

/-- `_normalize_type` only ever returns one of the three closed labels. -/
theorem normalize_type_mem (s : String) :
    normalize_type s = "administrative" ∨ normalize_type s = "criminal" ∨
      normalize_type s = "unknown" := by
  unfold normalize_type
  dsimp only
  split_ifs <;> simp

/-- A successful `normalize_type_py` result is one of the three closed labels. -/
theorem normalize_type_py_mem (v : Json) (w : String)
    (h : normalize_type_py v = .ok w) :
    w = "administrative" ∨ w = "criminal" ∨ w = "unknown" := by
  unfold normalize_type_py at h
  by_cases ht : v.truthy = false
  · rw [if_pos ht] at h
    injection h with h2
    exact Or.inr (Or.inr h2.symm)
  · rw [if_neg ht] at h
    cases v with
    | str s =>
      injection h with h2
      exact h2 ▸ normalize_type_mem s
    | null => exact Except.noConfusion h
    | bool b => exact Except.noConfusion h
    | num m e => exact Except.noConfusion h
    | nan => exact Except.noConfusion h
    | inf b => exact Except.noConfusion h
    | arr l => exact Except.noConfusion h
    | obj l => exact Except.noConfusion h

/-! ## C1 — `_normalize_type` is case-insensitive substring matching -/

/-- The normalization map exactly as claim C1 words it: on the stripped,
lowercased form, containing `admin` gives `administrative`; containing
`criminal` (and not `admin`) gives `criminal`; everything else, including
the empty string, gives `unknown`. -/
def normalizeTypeSpec (s : String) : String :=
  let t := strToLower (pyStrip s)
  if containsSub ("admin".data) t.data then "administrative"
  else if containsSub ("criminal".data) t.data then "criminal"
  else "unknown"

/-- C1: for every input string, `_normalize_type` performs a case-insensitive
substring match on the stripped text — any string whose lowercased, stripped
form contains `admin` maps to `administrative`; any containing `criminal`
(and not `admin`) maps to `criminal`; every other string, including `""`,
`N/A` or `other`, maps to `unknown`. -/
theorem normType_matches_spec (s : String) : normalize_type s = normalizeTypeSpec s := by
  by_cases h : s = ""
  · subst h; rfl
  · simp only [normalize_type, normalizeTypeSpec, if_neg h]

/-! ## C2 — a decode failure silently falls back to the raw text -/

/-- C2: for every raw reply whose cleaned candidate fails to decode as JSON,
the parse phase of `render_analysis_ui` raises nothing (`.ok`) and takes the
fallback path: the raw text is kept verbatim as the sole payload and no
classification label is produced. -/
theorem parse_failure_falls_back (s : String)
    (h : parseJson (cleanPossibleJson s) = none) :
    render_analysis_ui s = .ok (.rawOnly s) := by
  unfold render_analysis_ui
  rw [h]

/-- Witness for C2 at the concrete reply `"not json"`. -/
theorem parse_failure_falls_back_witness :
    parseJson (cleanPossibleJson "not json") = none ∧
    render_analysis_ui "not json" = .ok (.rawOnly "not json") :=
  ⟨rfl, parse_failure_falls_back "not json" rfl⟩

/-! ## C3 — the produced documentType lives in the closed three-label set -/

/-- C3: whenever `render_analysis_ui` produces a structured result, its
documentType is exactly one of `administrative`, `criminal`, `unknown` —
never the raw, unnormalized provider string. -/
theorem docType_closed_set (s d : String) (e : Json) (r : String)
    (h : render_analysis_ui s = .ok (.structured d e r)) :
    d = "administrative" ∨ d = "criminal" ∨ d = "unknown" := by
  unfold render_analysis_ui at h
  split at h
  next kvs =>
    split at h
    next w hw =>
      injection h with h2
      injection h2 with hd he hr
      exact hd ▸ normalize_type_py_mem _ _ hw
    next e0 he => exact Except.noConfusion h
  next hne =>
    injection h with h2
    exact RenderOutcome.noConfusion h2

/-- Witness for C3 at a concrete structured reply. -/
theorem docType_closed_set_witness :
    render_analysis_ui "\x7b\"document_type\": \"ADMIN document\"\x7d" =
      .ok (.structured "administrative" (.str "")
        "\x7b\"document_type\": \"ADMIN document\"\x7d") ∧
    ("administrative" = "administrative" ∨ "administrative" = "criminal" ∨
      "administrative" = "unknown") :=
  ⟨rfl, docType_closed_set "\x7b\"document_type\": \"ADMIN document\"\x7d" "administrative"
    (.str "") "\x7b\"document_type\": \"ADMIN document\"\x7d" rfl⟩

/-! ## C10 — valid JSON that is not an object falls back to raw text -/

/-- C10: when the cleaned candidate decodes as valid JSON that is not an
object (array, bare string, number, …), `render_analysis_ui` takes the raw
fallback path exactly as if parsing had failed: no label, raw text verbatim. -/
theorem nonobject_json_falls_back (s : String) (v : Json)
    (hp : parseJson (cleanPossibleJson s) = some v)
    (hv : ∀ kvs, v ≠ Json.obj kvs) :
    render_analysis_ui s = .ok (.rawOnly s) := by
  unfold render_analysis_ui
  rw [hp]
  cases v with
  | obj kvs => exact absurd rfl (hv kvs)
  | null => rfl
  | bool b => rfl
  | num m e => rfl
  | nan => rfl
  | inf b => rfl
  | str s2 => rfl
  | arr l => rfl

/-- Witness for C10 at the concrete array reply `"[1, 2]"`. -/
theorem nonobject_json_falls_back_witness :
    parseJson (cleanPossibleJson "[1, 2]") = some (.arr [.num 1 0, .num 2 0]) ∧
    render_analysis_ui "[1, 2]" = .ok (.rawOnly "[1, 2]") :=
  ⟨rfl, nonobject_json_falls_back "[1, 2]" (.arr [.num 1 0, .num 2 0]) rfl
    (fun _kvs h => Json.noConfusion h)⟩

/-! ## C5 — alias precedence is first-*truthy*-wins, not first-*present*-wins -/

/-- Counterexample to C5 as stated: in the decoded object both
`document_type` (value `""`) and `type` (value `"admin"`) are present, yet
the documentType used is `administrative` — the normalization of `type`'s
value — while normalizing `document_type`'s value `""` would give
`unknown`; likewise the explanation shown is `reason`'s value `"R"`, not
`explanation`'s value `""`. -/
theorem alias_first_present_counterexample :
    parseJson (cleanPossibleJson
        "\x7b\"document_type\":\"\",\"type\":\"admin\",\"explanation\":\"\",\"reason\":\"R\"\x7d") =
      some (.obj [("document_type", .str ""), ("type", .str "admin"),
                  ("explanation", .str ""), ("reason", .str "R")]) ∧
    render_analysis_ui
        "\x7b\"document_type\":\"\",\"type\":\"admin\",\"explanation\":\"\",\"reason\":\"R\"\x7d" =
      .ok (.structured "administrative" (.str "R")
        "\x7b\"document_type\":\"\",\"type\":\"admin\",\"explanation\":\"\",\"reason\":\"R\"\x7d") ∧
    normalize_type "" = "unknown" ∧
    ("administrative" : String) ≠ "unknown" ∧
    Json.str "R" ≠ Json.str "" := by
  refine ⟨rfl, rfl, rfl, by decide, ?_⟩
  intro h
  injection h with h2
  exact absurd h2 (by decide)

/-- C5 as amended: when the key `document_type` is present *with a truthy
value*, that value is the one used for normalization; likewise a present
truthy `explanation` value is the one returned as the explanation.  (When
the first key's value is falsy, the chain falls through — see the
counterexample.) -/
theorem alias_truthy_precedence :
    (∀ (kvs : List (String × Json)) (v : Json),
        getPy kvs "document_type" = some v → v.truthy = true → docTypeRaw kvs = v) ∧
    (∀ (kvs : List (String × Json)) (v : Json),
        getPy kvs "explanation" = some v → v.truthy = true → explanationRaw kvs = v) := by
  constructor
  · intro kvs v hget ht
    unfold docTypeRaw
    rw [hget]
    simp [pyOrV, ht]
  · intro kvs v hget ht
    unfold explanationRaw
    rw [hget]
    simp [pyOrV, ht]

/-- Witness for the amended C5 at a concrete object. -/
theorem alias_truthy_precedence_witness :
    getPy [("document_type", Json.str "admin"), ("type", Json.str "criminal")]
        "document_type" = some (Json.str "admin") ∧
    (Json.str "admin").truthy = true ∧
    docTypeRaw [("document_type", Json.str "admin"), ("type", Json.str "criminal")] =
      Json.str "admin" :=
  ⟨rfl, rfl, alias_truthy_precedence.1
    [("document_type", Json.str "admin"), ("type", Json.str "criminal")]
    (Json.str "admin") rfl rfl⟩

/-! ## C9 — a falsy present value is treated as absent by the alias chain -/

/-- C9: a key that is present but maps to a falsy value (empty string,
null, false, 0, …) is treated as absent by field aliasing — the chain falls
through to `type`/`document` (resp. `reason`/`summary`). -/
theorem falsy_alias_falls_through :
    (∀ (kvs : List (String × Json)) (v : Json),
        getPy kvs "document_type" = some v → v.truthy = false →
        docTypeRaw kvs =
          pyOrV (getPy kvs "type") (pyOrV (getPy kvs "document") (Json.str ""))) ∧
    (∀ (kvs : List (String × Json)) (v : Json),
        getPy kvs "explanation" = some v → v.truthy = false →
        explanationRaw kvs =
          pyOrV (getPy kvs "reason") (pyOrV (getPy kvs "summary") (Json.str ""))) := by
  constructor
  · intro kvs v hget ht
    unfold docTypeRaw
    rw [hget]
    simp [pyOrV, ht]
  · intro kvs v hget ht
    unfold explanationRaw
    rw [hget]
    simp [pyOrV, ht]

/-- Witness for C9: with `document_type = ""` and `type = "admin"`, the
chain yields `type`'s value, so the result normalizes to `administrative`. -/
theorem falsy_alias_falls_through_witness :
    getPy [("document_type", Json.str ""), ("type", Json.str "admin")] "document_type" =
      some (Json.str "") ∧
    (Json.str "").truthy = false ∧
    docTypeRaw [("document_type", Json.str ""), ("type", Json.str "admin")] =
      pyOrV (getPy [("document_type", Json.str ""), ("type", Json.str "admin")] "type")
        (pyOrV (getPy [("document_type", Json.str ""), ("type", Json.str "admin")] "document")
          (Json.str "")) ∧
    docTypeRaw [("document_type", Json.str ""), ("type", Json.str "admin")] =
      Json.str "admin" ∧
    normalize_type "admin" = "administrative" :=
  ⟨rfl, rfl,
    falsy_alias_falls_through.1 [("document_type", Json.str ""), ("type", Json.str "admin")]
      (Json.str "") rfl rfl,
    rfl, rfl⟩

/-! ## C6 — a non-2xx upload response aborts with status and body -/

/-- C6: for every upload response with a non-2xx HTTP status,
`analyze_document` returns an error string that embeds both the status code
and the response body, and the chat-completion call is not attempted. -/
theorem upload_http_error_aborts
    (upload : UploadRequestM → Except String UploadResponseM)
    (complete : ChatPayloadM → Except String String)
    (file_bytes : List Nat) (mime_type filename : String) (resp : UploadResponseM)
    (hup : upload (uploadRequestFor file_bytes mime_type filename) = .ok resp)
    (hst : ¬ (200 ≤ resp.status_code ∧ resp.status_code < 300)) :
    (analyze_document upload complete file_bytes mime_type filename).result =
      "Error uploading file: " ++ toString resp.status_code ++ " - " ++ resp.text ∧
    (analyze_document upload complete file_bytes mime_type filename).completionAttempted
      = false := by
  have h200 : resp.status_code ≠ 200 := by omega
  have h201 : resp.status_code ≠ 201 := by omega
  have hcond : ((resp.status_code != 200) && (resp.status_code != 201)) = true := by
    simp [bne_iff_ne, h200, h201]
  refine ⟨?_, ?_⟩ <;> simp [analyze_document, analyzeRun, hup, hcond]

/-- Witness for C6: upload answers HTTP 500 with body `"server error"`. -/
theorem upload_http_error_aborts_witness :
    ¬ (200 ≤ (500 : Nat) ∧ (500 : Nat) < 300) ∧
    (analyze_document (fun _ => .ok ⟨500, "server error"⟩) (fun _ => .error "unreachable")
        [7] "application/pdf" "doc.pdf").result = "Error uploading file: 500 - server error" ∧
    (analyze_document (fun _ => .ok ⟨500, "server error"⟩) (fun _ => .error "unreachable")
        [7] "application/pdf" "doc.pdf").completionAttempted = false := by
  refine ⟨by decide, ?_, ?_⟩
  · exact ((upload_http_error_aborts (fun _ => .ok ⟨500, "server error"⟩)
        (fun _ => .error "unreachable") [7] "application/pdf" "doc.pdf"
        ⟨500, "server error"⟩ rfl (by decide)).1).trans rfl
  · exact (upload_http_error_aborts (fun _ => .ok ⟨500, "server error"⟩)
        (fun _ => .error "unreachable") [7] "application/pdf" "doc.pdf"
        ⟨500, "server error"⟩ rfl (by decide)).2

/-! ## C7 — a 2xx upload response without a file id aborts distinctly -/

/-- C7: for every successful (200/201) upload response whose JSON body
lacks a (truthy) `id`, `analyze_document` returns the distinct
`no file id returned` error embedding the decoded body, and the completion
call is not attempted. -/
theorem upload_missing_id_aborts
    (upload : UploadRequestM → Except String UploadResponseM)
    (complete : ChatPayloadM → Except String String)
    (file_bytes : List Nat) (mime_type filename : String) (resp : UploadResponseM)
    (kvs : List (String × Json))
    (hup : upload (uploadRequestFor file_bytes mime_type filename) = .ok resp)
    (hst : resp.status_code = 200 ∨ resp.status_code = 201)
    (hj : parseJson resp.text = some (.obj kvs))
    (hid : ∀ v, getPy kvs "id" = some v → v.truthy = false) :
    (analyze_document upload complete file_bytes mime_type filename).result =
      "Error uploading file: no file id returned: " ++ pyReprJson (.obj kvs) ∧
    (analyze_document upload complete file_bytes mime_type filename).completionAttempted
      = false := by
  have hcond : ((resp.status_code != 200) && (resp.status_code != 201)) = false := by
    rcases hst with h | h <;> simp [h]
  cases hgid : getPy kvs "id" with
  | none =>
    refine ⟨?_, ?_⟩ <;> simp [analyze_document, analyzeRun, hup, hcond, hj, hgid]
  | some v =>
    have hv := hid v hgid
    refine ⟨?_, ?_⟩ <;> simp [analyze_document, analyzeRun, hup, hcond, hj, hgid, hv]

/-- Witness for C7: a 200 upload response whose body decodes to
an object without an `id` key. -/
theorem upload_missing_id_aborts_witness :
    ((200 : Nat) = 200 ∨ (200 : Nat) = 201) ∧
    parseJson "\x7b\"status\": \"ok\"\x7d" = some (.obj [("status", Json.str "ok")]) ∧
    (analyze_document (fun _ => .ok ⟨200, "\x7b\"status\": \"ok\"\x7d"⟩)
        (fun _ => .error "unreachable") [7] "image/png" "pic.png").result =
      "Error uploading file: no file id returned: " ++
        pyReprJson (.obj [("status", Json.str "ok")]) ∧
    (analyze_document (fun _ => .ok ⟨200, "\x7b\"status\": \"ok\"\x7d"⟩)
        (fun _ => .error "unreachable") [7] "image/png" "pic.png").completionAttempted
      = false := by
  refine ⟨Or.inl rfl, rfl, ?_, ?_⟩
  · exact (upload_missing_id_aborts (fun _ => .ok ⟨200, "\x7b\"status\": \"ok\"\x7d"⟩)
      (fun _ => .error "unreachable") [7] "image/png" "pic.png"
      ⟨200, "\x7b\"status\": \"ok\"\x7d"⟩ [("status", Json.str "ok")]
      rfl (Or.inl rfl) rfl (fun v h => Option.noConfusion h)).1
  · exact (upload_missing_id_aborts (fun _ => .ok ⟨200, "\x7b\"status\": \"ok\"\x7d"⟩)
      (fun _ => .error "unreachable") [7] "image/png" "pic.png"
      ⟨200, "\x7b\"status\": \"ok\"\x7d"⟩ [("status", Json.str "ok")]
      rfl (Or.inl rfl) rfl (fun v h => Option.noConfusion h)).2

/-! ## C8 — the purpose tag is derived from the MIME type -/

/-- C8: the upload's purpose tag is `"vision"` exactly when the MIME type
starts with `"image/"`, and `"user_data"` in every other case (including
the empty MIME type, whose falsiness short-circuits the Python `and`). -/
theorem purpose_tag_from_mime
    (upload : UploadRequestM → Except String UploadResponseM)
    (complete : ChatPayloadM → Except String String)
    (file_bytes : List Nat) (mime_type filename : String) :
    (analyze_document upload complete file_bytes mime_type filename).uploadRequest =
      uploadRequestFor file_bytes mime_type filename ∧
    (uploadRequestFor file_bytes mime_type filename).purpose =
      (if mime_type.startsWith "image/" then "vision" else "user_data") := by
  refine ⟨rfl, ?_⟩
  unfold uploadRequestFor purposeFor
  by_cases h : mime_type = ""
  · subst h; exact rfl
  · simp [h]

/-! ## C4 — recovery of a wrapped JSON object

Lemmas about `_clean_possible_json` on text of the shape `prose ++ object ++
prose` and on fence-wrapped text, leading to the corrected recovery claim. -/

/-- `dropWhile` stops immediately on a list whose head fails the predicate. -/
theorem dropWhile_head_stop {p : Char → Bool} {m q : List Char} {c : Char}
    (hm : m.head? = some c) (hc : p c = false) :
    (m ++ q).dropWhile p = m ++ q := by
  cases m with
  | nil => exact absurd hm (by simp)
  | cons a l =>
    injection hm with hac
    subst hac
    exact List.dropWhile_cons_of_neg (by simp [hc])

/-- Single-list version of `dropWhile_head_stop`. -/
theorem dropWhile_head_stop1 {p : Char → Bool} {m : List Char} {c : Char}
    (hm : m.head? = some c) (hc : p c = false) :
    m.dropWhile p = m := by
  have h := dropWhile_head_stop (q := []) hm hc
  simpa using h

/-- On `a ++ m ++ q` with the head of `m` failing `p`, `dropWhile` removes
only a prefix of `a`. -/
theorem dropWhile_three {p : Char → Bool} {a m q : List Char} {c : Char}
    (hm : m.head? = some c) (hc : p c = false) :
    (a ++ m ++ q).dropWhile p = a.dropWhile p ++ m ++ q := by
  rw [List.append_assoc, List.dropWhile_append]
  split
  next h =>
    rw [List.isEmpty_iff] at h
    rw [h, dropWhile_head_stop hm hc]
    simp
  next h => rw [List.append_assoc]

/-- Mirror image of `dropWhile_three` for the trailing strip. -/
theorem dropEndWhile_three {p : Char → Bool} {a m q : List Char} {c : Char}
    (hm : m.getLast? = some c) (hc : p c = false) :
    dropEndWhile p (a ++ m ++ q) = a ++ m ++ dropEndWhile p q := by
  unfold dropEndWhile
  rw [List.getLast?_eq_head?_reverse] at hm
  have hr : (a ++ m ++ q).reverse = q.reverse ++ m.reverse ++ a.reverse := by
    simp
  rw [hr, dropWhile_three hm hc]
  simp

/-- `str.strip(...)` on `a ++ m ++ q` only erodes the outer pieces when
`m`'s two end characters are not strippable. -/
theorem stripWith_three {p : Char → Bool} {a m q : List Char} {c0 c1 : Char}
    (hm0 : m.head? = some c0) (hc0 : p c0 = false)
    (hm1 : m.getLast? = some c1) (hc1 : p c1 = false) :
    stripWith p (a ++ m ++ q) = a.dropWhile p ++ m ++ dropEndWhile p q := by
  unfold stripWith
  rw [dropWhile_three hm0 hc0, dropEndWhile_three (a := a.dropWhile p) hm1 hc1]

/-- The greedy outermost-brace span of `a ++ m ++ b` is exactly `m` when `a`
has no `{`, `b` has no `}`, and `m` is brace-delimited. -/
theorem extractBraces_three {a m b : List Char}
    (ha : '{' ∉ a) (hb : '}' ∉ b)
    (hm0 : m.head? = some '{') (hm1 : m.getLast? = some '}') :
    extractBraces (a ++ m ++ b) = some m := by
  unfold extractBraces
  dsimp only
  have h1 : (a ++ m ++ b).dropWhile (fun c => c != '{') = m ++ b := by
    rw [List.append_assoc, List.dropWhile_append_of_pos (by
      intro x hx
      simp [bne_iff_ne]
      intro heq
      exact ha (heq ▸ hx))]
    exact dropWhile_head_stop hm0 (by simp)
  rw [h1]
  have h2 : ((m ++ b).reverse.dropWhile (fun c => c != '}')).reverse = m := by
    rw [List.getLast?_eq_head?_reverse] at hm1
    have hr : (m ++ b).reverse = b.reverse ++ m.reverse := by simp
    rw [hr, List.dropWhile_append_of_pos (by
      intro x hx
      simp [bne_iff_ne]
      intro heq
      exact hb (heq ▸ (List.mem_reverse.mp hx)))]
    rw [dropWhile_head_stop1 hm1 (by simp)]
    simp
  rw [h2]
  have hne : m ≠ [] := by
    intro h
    subst h
    simp at hm0
  simp [List.isEmpty_iff, hne]

/-- The fence scanner leaves a backtick-free cons head untouched. -/
theorem subFencesGo_cons_ne {c : Char} (l : List Char) (h : ¬ c = tick) :
    subFencesGo false [] (c :: l) = c :: subFencesGo false [] l := by
  conv_lhs => unfold subFencesGo
  simp [h]

/-- The fence scanner passes over a backtick-free prefix unchanged. -/
theorem subFences_append_noTick {l r : List Char} (h : ∀ c ∈ l, ¬ c = tick) :
    subFencesGo false [] (l ++ r) = l ++ subFencesGo false [] r := by
  induction l with
  | nil => simp
  | cons a l ih =>
    rw [List.cons_append, subFencesGo_cons_ne _ (h a (by simp)),
      ih (fun c hc => h c (by simp [hc]))]
    simp

/-- Fence removal is the identity on backtick-free text. -/
theorem subFences_id {l : List Char} (h : ∀ c ∈ l, ¬ c = tick) :
    subFences l = l := by
  unfold subFences
  have h2 := subFences_append_noTick (r := []) h
  have h3 : subFencesGo false [] ([] : List Char) = [] := rfl
  rw [h3] at h2
  simpa using h2

/-- Membership survives dropping a strippable tail. -/
theorem mem_dropEndWhile {p : Char → Bool} {c : Char} {l : List Char}
    (h : c ∈ dropEndWhile p l) : c ∈ l := by
  unfold dropEndWhile at h
  rw [List.mem_reverse] at h
  have h2 := (List.dropWhile_sublist p).mem h
  exact List.mem_reverse.mp h2

/-- `_clean_possible_json` on `prose ++ object ++ prose`: with backtick-free
text, no `{` before the object and no `}` after it, cleanup returns exactly
the brace-delimited object text. -/
theorem clean_prose (p body q : String)
    (hpt : ∀ c ∈ p.data, ¬ c = tick) (hbt : ∀ c ∈ body.data, ¬ c = tick)
    (hqt : ∀ c ∈ q.data, ¬ c = tick)
    (hpb : '{' ∉ p.data) (hqb : '}' ∉ q.data)
    (hb0 : body.data.head? = some '{') (hb1 : body.data.getLast? = some '}') :
    cleanPossibleJson (p ++ body ++ q) = body := by
  unfold cleanPossibleJson
  have hne : ¬ (p ++ body ++ q) = "" := by
    intro h
    have hd : (p ++ body ++ q).data = [] := by rw [h]
    rw [String.data_append, String.data_append] at hd
    cases he : body.data with
    | nil => rw [he] at hb0; simp at hb0
    | cons a l => rw [he] at hd; simp at hd
  rw [if_neg hne]
  dsimp only
  have hdata : (p ++ body ++ q).data = p.data ++ body.data ++ q.data := by
    rw [String.data_append, String.data_append]
  rw [hdata]
  have hsub : subFences (p.data ++ body.data ++ q.data) = p.data ++ body.data ++ q.data := by
    apply subFences_id
    intro c hc
    rcases List.mem_append.mp hc with hc2 | hc2
    · rcases List.mem_append.mp hc2 with hc3 | hc3
      · exact hpt c hc3
      · exact hbt c hc3
    · exact hqt c hc2
  rw [hsub]
  rw [stripWith_three hb0 (by decide) hb1 (by decide)]
  rw [extractBraces_three
    (fun hmem => hpb ((List.dropWhile_sublist isStripChar).mem hmem))
    (fun hmem => hqb (mem_dropEndWhile hmem)) hb0 hb1]

/-- `_clean_possible_json` on a markdown-fenced object: the ```` ```json ````
and closing fence are deleted, the newlines stripped, and the object text
returned exactly. -/
theorem clean_fenced (body : String)
    (hbt : ∀ c ∈ body.data, ¬ c = tick)
    (hb0 : body.data.head? = some '{') (hb1 : body.data.getLast? = some '}') :
    cleanPossibleJson ("```json\n" ++ body ++ "\n```") = body := by
  unfold cleanPossibleJson
  have hne : ¬ ("```json\n" ++ body ++ "\n```") = "" := by
    intro h
    have hd : ("```json\n" ++ body ++ "\n```").data = [] := by rw [h]
    rw [String.data_append, String.data_append] at hd
    rcases List.append_eq_nil.mp hd with ⟨hd2, _⟩
    rcases List.append_eq_nil.mp hd2 with ⟨hd3, _⟩
    exact absurd hd3 (by decide)
  rw [if_neg hne]
  dsimp only
  have hdata : ("```json\n" ++ body ++ "\n```").data
      = tick :: tick :: tick :: 'j' :: 's' :: 'o' :: 'n' ::
        ('\n' :: (body.data ++ ('\n' :: tick :: tick :: tick :: []))) := by
    rw [String.data_append, String.data_append]
    rfl
  rw [hdata]
  have h1 : subFences (tick :: tick :: tick :: 'j' :: 's' :: 'o' :: 'n' ::
      ('\n' :: (body.data ++ ('\n' :: tick :: tick :: tick :: [])))) =
      '\n' :: (body.data ++ ['\n']) := by
    unfold subFences
    have hstep : subFencesGo false [] (tick :: tick :: tick :: 'j' :: 's' :: 'o' :: 'n' ::
        ('\n' :: (body.data ++ ('\n' :: tick :: tick :: tick :: [])))) =
        subFencesGo false [] ('\n' :: (body.data ++ ('\n' :: tick :: tick :: tick :: []))) :=
      rfl
    rw [hstep, subFencesGo_cons_ne _ (by decide), subFences_append_noTick hbt]
    rfl
  rw [h1]
  have h2 : stripWith isStripChar ('\n' :: (body.data ++ ['\n'])) = body.data := by
    have h3 := stripWith_three (p := isStripChar) (a := ['\n']) (q := ['\n'])
      hb0 (by decide) hb1 (by decide)
    have hd1 : List.dropWhile isStripChar ['\n'] = [] := rfl
    have hd2 : dropEndWhile isStripChar ['\n'] = [] := rfl
    simpa [hd1, hd2] using h3
  rw [h2]
  have h4 := extractBraces_three (a := []) (b := []) (by simp) (by simp) hb0 hb1
  simp only [List.append_nil, List.nil_append] at h4
  rw [h4]

/-- When the cleaned candidate decodes to an object, `render_analysis_ui`
builds the structured card from that object's fields. -/
theorem render_of_obj (s : String) (kvs : List (String × Json)) (d : String)
    (hp : parseJson (cleanPossibleJson s) = some (.obj kvs))
    (hn : normalize_type_py (docTypeRaw kvs) = .ok d) :
    render_analysis_ui s = .ok (.structured d (explanationRaw kvs) s) := by
  unfold render_analysis_ui
  rw [hp]
  dsimp only
  rw [hn]

/-- Counterexample to C4 as stated: the reply
`{"document_type": "admin"} }` contains a single well-formed JSON object
surrounded by prose, yet the greedy outermost-brace span swallows the stray
`}`, decoding fails, and the raw fallback is shown instead of the object's
fields; and for `{"document_type": 5}` the fields are not recovered either —
normalization of the truthy non-string raises (the `.error` outcome). -/
theorem json_recovery_counterexample :
    parseJson "\x7b\"document_type\": \"admin\"\x7d" =
      some (.obj [("document_type", .str "admin")]) ∧
    render_analysis_ui "\x7b\"document_type\": \"admin\"\x7d \x7d" =
      .ok (.rawOnly "\x7b\"document_type\": \"admin\"\x7d \x7d") ∧
    render_analysis_ui "\x7b\"document_type\": 5\x7d" = .error () :=
  ⟨rfl, rfl, rfl⟩

/-- C4 as amended: for every rawText in which a single well-formed JSON
object is wrapped in a ```` ```json ```` fence, or surrounded by
backtick-free prose with no `{` before the object and no `}` after it,
cleanup selects exactly the brace-delimited object text, decodes it, and
the structured card is built from the object's (aliased) document_type —
when its normalization succeeds — and explanation values. -/
theorem json_recovery_amended :
    (∀ (p body q : String) (kvs : List (String × Json)) (d : String),
      (∀ c ∈ p.data, ¬ c = tick) → (∀ c ∈ body.data, ¬ c = tick) →
      (∀ c ∈ q.data, ¬ c = tick) →
      '{' ∉ p.data → '}' ∉ q.data →
      body.data.head? = some '{' → body.data.getLast? = some '}' →
      parseJson body = some (.obj kvs) →
      normalize_type_py (docTypeRaw kvs) = .ok d →
      render_analysis_ui (p ++ body ++ q) =
        .ok (.structured d (explanationRaw kvs) (p ++ body ++ q))) ∧
    (∀ (body : String) (kvs : List (String × Json)) (d : String),
      (∀ c ∈ body.data, ¬ c = tick) →
      body.data.head? = some '{' → body.data.getLast? = some '}' →
      parseJson body = some (.obj kvs) →
      normalize_type_py (docTypeRaw kvs) = .ok d →
      render_analysis_ui ("```json\n" ++ body ++ "\n```") =
        .ok (.structured d (explanationRaw kvs) ("```json\n" ++ body ++ "\n```"))) := by
  constructor
  · intro p body q kvs d hpt hbt hqt hpb hqb hb0 hb1 hj hn
    exact render_of_obj _ _ _
      (by rw [clean_prose p body q hpt hbt hqt hpb hqb hb0 hb1]; exact hj) hn
  · intro body kvs d hbt hb0 hb1 hj hn
    exact render_of_obj _ _ _
      (by rw [clean_fenced body hbt hb0 hb1]; exact hj) hn

/-- Witness for the amended C4: a prose-wrapped reply and a fenced reply,
both recovered. -/
theorem json_recovery_amended_witness :
    parseJson "\x7b\"type\":\"admin\",\"reason\":\"Routine form.\"\x7d" =
      some (.obj [("type", .str "admin"), ("reason", .str "Routine form.")]) ∧
    render_analysis_ui
        ("Sure: " ++ "\x7b\"type\":\"admin\",\"reason\":\"Routine form.\"\x7d" ++ " (done)") =
      .ok (.structured "administrative" (.str "Routine form.")
        ("Sure: " ++ "\x7b\"type\":\"admin\",\"reason\":\"Routine form.\"\x7d" ++ " (done)")) ∧
    render_analysis_ui
        ("```json\n" ++ "\x7b\"type\":\"admin\",\"reason\":\"Routine form.\"\x7d" ++ "\n```") =
      .ok (.structured "administrative" (.str "Routine form.")
        ("```json\n" ++ "\x7b\"type\":\"admin\",\"reason\":\"Routine form.\"\x7d" ++ "\n```")) := by
  refine ⟨rfl, ?_, ?_⟩
  · exact json_recovery_amended.1 "Sure: "
      "\x7b\"type\":\"admin\",\"reason\":\"Routine form.\"\x7d" " (done)"
      [("type", .str "admin"), ("reason", .str "Routine form.")] "administrative"
      (by decide) (by decide) (by decide) (by decide) (by decide) rfl rfl rfl rfl
  · exact json_recovery_amended.2
      "\x7b\"type\":\"admin\",\"reason\":\"Routine form.\"\x7d"
      [("type", .str "admin"), ("reason", .str "Routine form.")] "administrative"
      (by decide) rfl rfl rfl rfl

end DocAnalysis
